import Mathlib

/-!
Shallow embedding of the order-and-payment service
(`src/order-service/index.js`) of the fashion e-commerce repository.

The relational store (PostgreSQL tables `shopping_carts`, `cart_items`,
`orders`, `order_items`, `payments`) is modelled as lists of rows plus
SERIAL counters.  Monetary DECIMAL(10,2) values are modelled as integer
cents; quantities as integers (the schema has no CHECK constraint, so
non-positive values are storable).  Each Express route handler becomes a
pure function on the store state, returning the surfaced result together
with the committed store.  A transactional handler (`BEGIN` … `COMMIT`,
with `ROLLBACK` in its `catch`) returns the original store on every error
path; the payment handler opens no transaction, so its writes commit one by
one and a late failure leaves earlier writes in place.  Store-write
failures are injected through a `fails : Nat → Bool` oracle indexed by the
execution order of the handler's queries; `fun _ => false` is the
failure-free run.  The external `stripe.paymentIntents.create` call is
modelled by a `GatewayResult` parameter (success / decline / timeout); in
the code a decline and a timeout both make the SDK throw, and the handler's
single `catch` turns either into the same generic 400 response.
-/

/-- Row of `shopping_carts`: `id SERIAL, user_id VARCHAR`. -/
structure CartRow where
  id : Nat
  user_id : String
deriving DecidableEq, Repr

/-- Row of `cart_items`: `id SERIAL, cart_id, product_id, quantity, price`. -/
structure CartItemRow where
  id : Nat
  cart_id : Nat
  product_id : String
  quantity : Int
  price : Int
deriving DecidableEq, Repr

/-- Row of `orders` (timestamps omitted): `id, user_id, status, total_amount,
shipping_address`. -/
structure OrderRow where
  id : Nat
  user_id : String
  status : String
  total_amount : Int
  shipping_address : String
deriving DecidableEq, Repr

/-- Row of `order_items`: `id, order_id, product_id, quantity, price`. -/
structure OrderItemRow where
  id : Nat
  order_id : Nat
  product_id : String
  quantity : Int
  price : Int
deriving DecidableEq, Repr

/-- Row of `payments`: `id, order_id, amount, status, payment_method,
transaction_id`. -/
structure PaymentRow where
  id : Nat
  order_id : Nat
  amount : Int
  status : String
  payment_method : String
  transaction_id : String
deriving DecidableEq, Repr

/-- The whole relational store, with the next value of each SERIAL column. -/
structure DB where
  carts : List CartRow
  cart_items : List CartItemRow
  orders : List OrderRow
  order_items : List OrderItemRow
  payments : List PaymentRow
  nextCartId : Nat
  nextCartItemId : Nat
  nextOrderId : Nat
  nextOrderItemId : Nat
  nextPaymentId : Nat
deriving DecidableEq, Repr

/-- The empty store. -/
def DB.empty : DB :=
  ⟨[], [], [], [], [], 1, 1, 1, 1, 1⟩

/-- `SELECT ci.* FROM cart_items ci JOIN shopping_carts sc ON ci.cart_id =
sc.id WHERE sc.user_id = $1` — the query used both by `GET /cart` and by the
load step of `POST /order/place`. -/
def userCartItems (db : DB) (uid : String) : List CartItemRow :=
  db.cart_items.filter (fun ci =>
    db.carts.any (fun sc => sc.id == ci.cart_id && sc.user_id == uid))

/-- `GET /cart`: read-only, returns the join above. -/
def getCart (db : DB) (uid : String) : List CartItemRow :=
  userCartItems db uid

/-- Errors the cart/order route handlers can surface (each becomes an HTTP
400 response in the code). -/
inductive OrderErr where
  | emptyCart
  | storeError
deriving DecidableEq, Repr

/-- Errors the payment route handler can surface.  A Stripe decline and a
Stripe timeout both make the SDK call throw, and the handler's one `catch`
forwards the thrown gateway error, so both are the single `gatewayError`
constructor here — the code has no separate indeterminate/timeout kind. -/
inductive PayErr where
  | orderNotFound
  | gatewayError (reason : String)
  | storeError
deriving DecidableEq, Repr

/-- Which taxonomy bucket a surfaced payment error falls into, as decided by
the code (the handler treats every thrown gateway error alike). -/
def payErrKind : PayErr → String
  | .orderNotFound => "order_not_found"
  | .gatewayError _ => "gateway_error"
  | .storeError => "store_error"

/-- Outcome of the external `stripe.paymentIntents.create` call.  On
`decline` and on `timeout` the SDK throws (with the shown reason); only on
`success` does the call return a payment intent whose id becomes the
recorded transaction id. -/
inductive GatewayResult where
  | success (txid : String)
  | decline (reason : String)
  | timeout
deriving DecidableEq, Repr

/-- `POST /cart/add`.  The body fields `product_id`, `quantity`, `price` are
taken from the request as-is (`Option` models a missing field, inserted as
SQL NULL).  Inside one transaction the handler selects the user's cart
(`rows[0]` of `SELECT * FROM shopping_carts WHERE user_id = $1`), inserts a
new cart row when none exists, and inserts the item row.  There is no input
validation, so the only failure is a NULL field violating the schema's
NOT NULL constraints, in which case the `catch` runs `ROLLBACK` (including
any cart row inserted in the same transaction) and the store is unchanged,
modelled by the `.error` result carrying no new state. -/
def addItem (db : DB) (uid : String) (pid : Option String)
    (qty price : Option Int) : Except OrderErr DB :=
  match pid, qty, price with
  | some p, some q, some pr =>
      match db.carts.filter (fun c => c.user_id == uid) with
      | [] =>
          .ok { db with
            carts := db.carts ++ [⟨db.nextCartId, uid⟩]
            nextCartId := db.nextCartId + 1
            cart_items := db.cart_items ++ [⟨db.nextCartItemId, db.nextCartId, p, q, pr⟩]
            nextCartItemId := db.nextCartItemId + 1 }
      | c :: _ =>
          .ok { db with
            cart_items := db.cart_items ++ [⟨db.nextCartItemId, c.id, p, q, pr⟩]
            nextCartItemId := db.nextCartItemId + 1 }
  | _, _, _ => .error .storeError

/-- Committed state after `POST /cart/add`: on the NULL-field error the
transaction rolled back, so the store is the original one. -/
def addItemFinal (db : DB) (uid : String) (pid : Option String)
    (qty price : Option Int) : DB :=
  match addItem db uid pid qty price with
  | .ok db1 => db1
  | .error _ => db

/-- `DELETE /cart/remove/:itemId`: `DELETE FROM cart_items WHERE id = $1 AND
cart_id IN (SELECT id FROM shopping_carts WHERE user_id = $2)`; the handler
then always replies success, whether or not a row was deleted. -/
def removeItem (db : DB) (uid : String) (itemId : Nat) : DB :=
  { db with
    cart_items := db.cart_items.filter (fun ci =>
      !(ci.id == itemId &&
        db.carts.any (fun sc => sc.id == ci.cart_id && sc.user_id == uid))) }

/-- The `reduce` of `POST /order/place`: `sum + item.price * item.quantity`
starting from 0. -/
def cartTotal (items : List CartItemRow) : Int :=
  items.foldl (fun s i => s + i.price * i.quantity) 0

/-- The order-item insert loop of `POST /order/place`: one `order_items` row
per cart item, copying `product_id`, `quantity`, `price` verbatim, with
consecutive SERIAL ids and the created order's id. -/
def mkOrderItems (nextId : Nat) (orderId : Nat) :
    List CartItemRow → List OrderItemRow
  | [] => []
  | i :: rest =>
      ⟨nextId, orderId, i.product_id, i.quantity, i.price⟩ ::
        mkOrderItems (nextId + 1) orderId rest

/-- `POST /order/place` with injected query failures.  Query indices in
execution order: 0 = the cart-items SELECT, 1 = the order INSERT,
2 … 1+n = the n order-item INSERTs, 2+n = the cart-items DELETE,
3+n = COMMIT.  All queries run inside the one transaction opened by
`BEGIN`; any thrown error (including the `Cart is empty` throw) reaches the
`catch`, which runs `ROLLBACK`, so the committed store is the original `db`
on every error path, and only `COMMIT` publishes the accumulated writes:
the appended order row with status `pending` and the computed total, the
copied order items, and the deletion of every cart item joined to one of
the user's carts. -/
def placeOrderGen (fails : Nat → Bool) (db : DB) (uid addr : String) :
    Except OrderErr OrderRow × DB :=
  if fails 0 then (.error .storeError, db)
  else if (userCartItems db uid).isEmpty then (.error .emptyCart, db)
  else if fails 1 then (.error .storeError, db)
  else if (List.range (userCartItems db uid).length).any (fun i => fails (2 + i)) then
    (.error .storeError, db)
  else if fails (2 + (userCartItems db uid).length) then (.error .storeError, db)
  else if fails (3 + (userCartItems db uid).length) then (.error .storeError, db)
  else
    (.ok ⟨db.nextOrderId, uid, "pending", cartTotal (userCartItems db uid), addr⟩,
     { db with
        orders := db.orders ++
          [⟨db.nextOrderId, uid, "pending", cartTotal (userCartItems db uid), addr⟩]
        nextOrderId := db.nextOrderId + 1
        order_items := db.order_items ++
          mkOrderItems db.nextOrderItemId db.nextOrderId (userCartItems db uid)
        nextOrderItemId := db.nextOrderItemId + (userCartItems db uid).length
        cart_items := db.cart_items.filter (fun ci =>
          !(db.carts.any (fun sc => sc.id == ci.cart_id && sc.user_id == uid))) })

/-- The failure-free run of `POST /order/place`. -/
def placeOrder (db : DB) (uid addr : String) : Except OrderErr OrderRow × DB :=
  placeOrderGen (fun _ => false) db uid addr

/-- `POST /payment/process` with gateway outcome `gw` and injected query
failures (0 = the order SELECT, 1 = the payment INSERT, 2 = the status
UPDATE).  This handler opens NO transaction: each successful write commits
immediately, so a failing UPDATE leaves the already-inserted `completed`
payment row in the store while the order keeps its previous status.  The
UPDATE sets status `paid` on the row matching the order id. -/
def processPaymentGen (gw : GatewayResult) (fails : Nat → Bool) (db : DB)
    (uid : String) (orderId : Nat) (method : String) :
    Except PayErr Unit × DB :=
  if fails 0 then (.error .storeError, db) else
  match db.orders.find? (fun o => o.id == orderId && o.user_id == uid) with
  | none => (.error .orderNotFound, db)
  | some o =>
    match gw with
    | .decline reason => (.error (.gatewayError reason), db)
    | .timeout => (.error (.gatewayError "timeout"), db)
    | .success txid =>
      if fails 1 then (.error .storeError, db) else
      if fails 2 then
        (.error .storeError,
         { db with
            payments := db.payments ++
              [⟨db.nextPaymentId, orderId, o.total_amount, "completed", method, txid⟩]
            nextPaymentId := db.nextPaymentId + 1 })
      else
        (.ok (),
         { db with
            payments := db.payments ++
              [⟨db.nextPaymentId, orderId, o.total_amount, "completed", method, txid⟩]
            nextPaymentId := db.nextPaymentId + 1
            orders := db.orders.map (fun x =>
              if x.id == orderId then { x with status := "paid" } else x) })

/-- The failure-free run of `POST /payment/process`. -/
def processPayment (gw : GatewayResult) (db : DB) (uid : String)
    (orderId : Nat) (method : String) : Except PayErr Unit × DB :=
  processPaymentGen gw (fun _ => false) db uid orderId method

/-- Number of `payments` rows for `orderId` with status `completed`. -/
def completedCount (db : DB) (orderId : Nat) : Nat :=
  (db.payments.filter (fun p =>
    p.order_id == orderId && p.status == "completed")).length

/-- The snapshot fields of a cart item: product id, quantity, price. -/
def cartItemSnap (i : CartItemRow) : String × Int × Int :=
  (i.product_id, i.quantity, i.price)

/-- The snapshot fields of an order item: product id, quantity, price. -/
def orderItemSnap (i : OrderItemRow) : String × Int × Int :=
  (i.product_id, i.quantity, i.price)

/-- Each user owns at most one `shopping_carts` row. -/
def AtMostOneCart (db : DB) : Prop :=
  ∀ c1 ∈ db.carts, ∀ c2 ∈ db.carts, c1.user_id = c2.user_id → c1 = c2

/-! ### Helper lemmas -/

theorem mkOrderItems_snap (orderId : Nat) (l : List CartItemRow) :
    ∀ nextId, (mkOrderItems nextId orderId l).map orderItemSnap = l.map cartItemSnap := by
  induction l with
  | nil => intro n; rfl
  | cons i rest ih =>
      intro n
      simp [mkOrderItems, orderItemSnap, cartItemSnap, ih (n + 1)]

theorem mkOrderItems_order_id (orderId : Nat) (l : List CartItemRow) :
    ∀ nextId, ∀ oi ∈ mkOrderItems nextId orderId l, oi.order_id = orderId := by
  induction l with
  | nil => intro n oi h; simp [mkOrderItems] at h
  | cons i rest ih =>
      intro n oi h
      simp only [mkOrderItems, List.mem_cons] at h
      rcases h with h | h
      · subst h; rfl
      · exact ih (n + 1) oi h

theorem filter_idem {α : Type} (p : α → Bool) (l : List α) :
    (l.filter p).filter p = l.filter p := by
  rw [List.filter_filter]
  simp only [Bool.and_self]

theorem userCartItems_after_clear (db db1 : DB) (uid : String)
    (hcarts : db1.carts = db.carts)
    (hitems : db1.cart_items = db.cart_items.filter (fun ci =>
      !(db.carts.any (fun sc => sc.id == ci.cart_id && sc.user_id == uid)))) :
    userCartItems db1 uid = [] := by
  unfold userCartItems
  rw [hcarts, hitems, List.filter_filter]
  have : (fun ci : CartItemRow =>
      (db.carts.any (fun sc => sc.id == ci.cart_id && sc.user_id == uid)) &&
      !(db.carts.any (fun sc => sc.id == ci.cart_id && sc.user_id == uid))) =
      fun _ => false := by
    funext ci
    exact Bool.and_not_self _
  rw [this, List.filter_false]

theorem addItem_getCart_sanity :
    getCart (addItemFinal DB.empty "u" (some "p") (some 2) (some 2000)) "u" =
      [⟨1, 1, "p", 2, 2000⟩] := by
  decide

/-! ### Concrete stores used by witnesses and counterexamples -/

/-- A store holding one cart for user `v` with one item in it. -/
def dbForeign : DB :=
  { DB.empty with
    carts := [⟨1, "v"⟩]
    nextCartId := 2
    cart_items := [⟨1, 1, "p", 1, 500⟩]
    nextCartItemId := 2 }

/-- A store holding one pending order (id 1, user `u`, total 5500 cents). -/
def dbOrder1 : DB :=
  { DB.empty with
    orders := [⟨1, "u", "pending", 5500, "addr"⟩]
    nextOrderId := 2 }

/-- The spec's concrete scenario: user `u` owns cart 1 holding productA
qty 2 @ 2000 cents and productB qty 1 @ 1500 cents. -/
def dbCart2 : DB :=
  { DB.empty with
    carts := [⟨1, "u"⟩]
    nextCartId := 2
    cart_items := [⟨1, 1, "productA", 2, 2000⟩, ⟨2, 1, "productB", 1, 1500⟩]
    nextCartItemId := 3 }

/-! ### Claims -/

/-- C4: for every user whose cart is empty or absent, `PlaceOrder` fails
with the empty-cart error, the committed store is unchanged (no order row,
nothing else written), and repeating the call fails the same way. -/
theorem claim_C4_empty_cart_noop (db : DB) (uid addr : String)
    (h : userCartItems db uid = []) :
    (placeOrder db uid addr).1 = Except.error .emptyCart ∧
    (placeOrder db uid addr).2 = db ∧
    (placeOrder (placeOrder db uid addr).2 uid addr).1 = Except.error .emptyCart := by
  have hE : (userCartItems db uid).isEmpty = true := by simp [h]
  have h1 : placeOrder db uid addr = (Except.error .emptyCart, db) := by
    unfold placeOrder placeOrderGen
    simp [hE]
  refine ⟨by rw [h1], by rw [h1], ?_⟩
  rw [h1]
  rw [show (Prod.mk (Except.error OrderErr.emptyCart : Except OrderErr OrderRow) db).2 = db from rfl, h1]

theorem claim_C4_empty_cart_noop_witness :
    (placeOrder DB.empty "u" "addr").1 = Except.error .emptyCart ∧
    (placeOrder DB.empty "u" "addr").2 = DB.empty ∧
    (placeOrder (placeOrder DB.empty "u" "addr").2 "u" "addr").1 =
      Except.error .emptyCart :=
  claim_C4_empty_cart_noop DB.empty "u" "addr" (by decide)

/-- C8: removing an item id that does not exist in one of the caller's
carts changes nothing yet succeeds (the handler always replies success),
and `RemoveItem` is idempotent on every state. -/
theorem claim_C8_remove_noop_idempotent (db : DB) (uid : String) (itemId : Nat)
    (h : ∀ ci ∈ db.cart_items, ci.id = itemId →
      ¬ ∃ sc ∈ db.carts, sc.id = ci.cart_id ∧ sc.user_id = uid) :
    removeItem db uid itemId = db ∧
    ∀ db2 uid2 i2, removeItem (removeItem db2 uid2 i2) uid2 i2 =
      removeItem db2 uid2 i2 := by
  constructor
  · have hfilter : db.cart_items.filter (fun ci =>
        !(ci.id == itemId &&
          db.carts.any (fun sc => sc.id == ci.cart_id && sc.user_id == uid)))
        = db.cart_items := by
      rw [List.filter_eq_self]
      intro a ha
      by_cases hid : a.id = itemId
      · have hno := h a ha hid
        have hany : db.carts.any (fun sc => sc.id == a.cart_id && sc.user_id == uid)
            = false := by
          rw [Bool.eq_false_iff]
          intro hcontra
          rw [List.any_eq_true] at hcontra
          obtain ⟨sc, hsc, hb⟩ := hcontra
          simp only [Bool.and_eq_true, beq_iff_eq] at hb
          exact hno ⟨sc, hsc, hb.1, hb.2⟩
        simp [hany]
      · simp [hid]
    unfold removeItem
    rw [hfilter]
  · intro db2 uid2 i2
    unfold removeItem
    dsimp only []
    rw [filter_idem]

theorem claim_C8_remove_noop_idempotent_witness :
    removeItem dbForeign "u" 1 = dbForeign ∧
    ∀ db2 uid2 i2, removeItem (removeItem db2 uid2 i2) uid2 i2 =
      removeItem db2 uid2 i2 :=
  claim_C8_remove_noop_idempotent dbForeign "u" 1 (by decide)

/-- C7 counterexample: an `AddItem` with the non-positive quantity `-5`
does NOT fail — it succeeds and writes both a cart row and a cart-item row
holding the negative quantity, refuting the claim that such input is
rejected with a validation error before any store write. -/
theorem claim_C7_counterexample :
    ¬ (0 : Int) < -5 ∧
    (addItem DB.empty "u1" (some "p1") (some (-5)) (some 1000)).isOk = true ∧
    addItemFinal DB.empty "u1" (some "p1") (some (-5)) (some 1000) ≠ DB.empty ∧
    (addItemFinal DB.empty "u1" (some "p1") (some (-5)) (some 1000)).cart_items =
      [⟨1, 1, "p1", -5, 1000⟩] := by
  decide

/-- C7 amended: `AddItem` performs no input validation.  An input with a
missing field fails through the store's NOT NULL constraint and the
transaction rollback leaves the store unchanged; but every input with all
three fields present — including a non-positive quantity or a negative
price — succeeds and appends a cart-item row holding exactly the given
values. -/
theorem claim_C7_add_item_no_validation (db : DB) (uid p : String) (q pr : Int)
    (pid : Option String) (qty price : Option Int)
    (h : pid = none ∨ qty = none ∨ price = none) :
    addItemFinal db uid pid qty price = db ∧
    ∃ db1, addItem db uid (some p) (some q) (some pr) = .ok db1 ∧
      ∃ cid, db1.cart_items = db.cart_items ++ [⟨db.nextCartItemId, cid, p, q, pr⟩] := by
  constructor
  · cases pid <;> cases qty <;> cases price <;>
      simp_all [addItemFinal, addItem]
  · rcases hfilter : db.carts.filter (fun c => c.user_id == uid) with _ | ⟨c, rest⟩
    · exact ⟨{ db with
        carts := db.carts ++ [⟨db.nextCartId, uid⟩]
        nextCartId := db.nextCartId + 1
        cart_items := db.cart_items ++ [⟨db.nextCartItemId, db.nextCartId, p, q, pr⟩]
        nextCartItemId := db.nextCartItemId + 1 },
        by simp [addItem, hfilter], db.nextCartId, rfl⟩
    · exact ⟨{ db with
        cart_items := db.cart_items ++ [⟨db.nextCartItemId, c.id, p, q, pr⟩]
        nextCartItemId := db.nextCartItemId + 1 },
        by simp [addItem, hfilter], c.id, rfl⟩

theorem claim_C7_add_item_no_validation_witness :
    addItemFinal DB.empty "u1" none (some 1) (some 100) = DB.empty ∧
    ∃ db1, addItem DB.empty "u1" (some "p1") (some (-5)) (some 1000) = .ok db1 ∧
      ∃ cid, db1.cart_items =
        DB.empty.cart_items ++ [⟨DB.empty.nextCartItemId, cid, "p1", -5, 1000⟩] :=
  claim_C7_add_item_no_validation DB.empty "u1" "p1" (-5) 1000 none (some 1) (some 100)
    (Or.inl rfl)

/-- C1: on a non-empty cart, `PlaceOrder` succeeds with an order whose
`total_amount` is the exact sum of `price * quantity` over the loaded cart
items, each cart item is copied verbatim (product id, quantity, price) into
an order-item row carrying the new order's id, and all of the user's cart
items are deleted, so `GetCart` returns the empty list afterward. -/
theorem claim_C1_place_order_snapshot (db : DB) (uid addr : String)
    (h : userCartItems db uid ≠ []) :
    ∃ o, (placeOrder db uid addr).1 = Except.ok o ∧
      o.total_amount = cartTotal (userCartItems db uid) ∧
      o.status = "pending" ∧
      ((placeOrder db uid addr).2.order_items.drop db.order_items.length).map
          orderItemSnap
        = (userCartItems db uid).map cartItemSnap ∧
      (∀ oi ∈ (placeOrder db uid addr).2.order_items.drop db.order_items.length,
        oi.order_id = o.id) ∧
      getCart (placeOrder db uid addr).2 uid = [] := by
  have hE : (userCartItems db uid).isEmpty = false := List.isEmpty_eq_false.mpr h
  have hred : placeOrder db uid addr =
      (Except.ok ⟨db.nextOrderId, uid, "pending", cartTotal (userCartItems db uid), addr⟩,
       { db with
          orders := db.orders ++
            [⟨db.nextOrderId, uid, "pending", cartTotal (userCartItems db uid), addr⟩]
          nextOrderId := db.nextOrderId + 1
          order_items := db.order_items ++
            mkOrderItems db.nextOrderItemId db.nextOrderId (userCartItems db uid)
          nextOrderItemId := db.nextOrderItemId + (userCartItems db uid).length
          cart_items := db.cart_items.filter (fun ci =>
            !(db.carts.any (fun sc => sc.id == ci.cart_id && sc.user_id == uid))) }) := by
    unfold placeOrder placeOrderGen
    simp [hE]
  refine ⟨⟨db.nextOrderId, uid, "pending", cartTotal (userCartItems db uid), addr⟩,
    ?_, rfl, rfl, ?_, ?_, ?_⟩
  · rw [hred]
  · rw [hred]
    dsimp only []
    rw [List.drop_left, mkOrderItems_snap]
  · rw [hred]
    dsimp only []
    rw [List.drop_left]
    exact mkOrderItems_order_id db.nextOrderId (userCartItems db uid) db.nextOrderItemId
  · rw [hred]
    exact userCartItems_after_clear db _ uid rfl rfl

theorem claim_C1_place_order_snapshot_witness :
    ∃ o, (placeOrder dbCart2 "u" "addr").1 = Except.ok o ∧
      o.total_amount = cartTotal (userCartItems dbCart2 "u") ∧
      o.status = "pending" ∧
      ((placeOrder dbCart2 "u" "addr").2.order_items.drop
          dbCart2.order_items.length).map orderItemSnap
        = (userCartItems dbCart2 "u").map cartItemSnap ∧
      (∀ oi ∈ (placeOrder dbCart2 "u" "addr").2.order_items.drop
          dbCart2.order_items.length, oi.order_id = o.id) ∧
      getCart (placeOrder dbCart2 "u" "addr").2 "u" = [] :=
  claim_C1_place_order_snapshot dbCart2 "u" "addr" (by decide)

/-- C2: `PlaceOrder` is all-or-nothing.  Whichever query of the transaction
fails (any injected store failure, or the empty-cart throw), the committed
store is exactly the starting one — no order row, no order-item rows, no
cart item deleted; and when the call succeeds, the new order row and the
cart clearing are published together by the one COMMIT. -/
theorem claim_C2_place_order_atomic (fails : Nat → Bool) (db : DB)
    (uid addr : String) :
    match placeOrderGen fails db uid addr with
    | (.error _, db1) => db1 = db
    | (.ok o, db1) =>
        db1.orders = db.orders ++ [o] ∧
        db1.carts = db.carts ∧
        db1.payments = db.payments ∧
        getCart db1 uid = [] := by
  unfold placeOrderGen
  split_ifs <;>
    try exact rfl
  exact ⟨rfl, rfl, rfl, userCartItems_after_clear db _ uid rfl rfl⟩

/-- C3 counterexample: the payment handler never checks the order's current
status, so a second successful `ProcessPayment` on the already-paid order 1
succeeds again and the order accumulates TWO `completed` payment rows,
refuting "never accumulates more than one Payment row with a terminal
success status" (and "exactly one" after every successful call). -/
theorem claim_C3_counterexample :
    (processPayment (.success "tx2")
        (processPayment (.success "tx1") dbOrder1 "u" 1 "card").2
        "u" 1 "card").1 = Except.ok () ∧
    completedCount
      (processPayment (.success "tx2")
        (processPayment (.success "tx1") dbOrder1 "u" 1 "card").2
        "u" 1 "card").2 1 = 2 :=
  ⟨rfl, rfl⟩

/-- C3 amended: after a successful `ProcessPayment` on an order owned by
the caller, the order's status is `paid` and one more `completed` Payment
row for it exists (exactly one when none existed before); but the handler
never inspects the order's current status, so repeated successful calls
keep appending further `completed` rows — the at-most-one-success invariant
does not hold across sequences of attempts. -/
theorem claim_C3_payment_success (db : DB) (uid method txid : String)
    (oid : Nat) (o : OrderRow)
    (hfind : db.orders.find? (fun x => x.id == oid && x.user_id == uid) = some o) :
    (processPayment (.success txid) db uid oid method).1 = Except.ok () ∧
    (∀ x ∈ (processPayment (.success txid) db uid oid method).2.orders,
      x.id = oid → x.status = "paid") ∧
    (processPayment (.success txid) db uid oid method).2.payments =
      db.payments ++
        [⟨db.nextPaymentId, oid, o.total_amount, "completed", method, txid⟩] ∧
    completedCount (processPayment (.success txid) db uid oid method).2 oid =
      completedCount db oid + 1 := by
  have hred : processPayment (.success txid) db uid oid method =
      (Except.ok (),
       { db with
          payments := db.payments ++
            [⟨db.nextPaymentId, oid, o.total_amount, "completed", method, txid⟩]
          nextPaymentId := db.nextPaymentId + 1
          orders := db.orders.map (fun x =>
            if x.id == oid then { x with status := "paid" } else x) }) := by
    unfold processPayment processPaymentGen
    simp [hfind]
  refine ⟨by rw [hred], ?_, by rw [hred], ?_⟩
  · rw [hred]
    intro x hx hid
    dsimp only [] at hx
    obtain ⟨y, hy, hxy⟩ := List.mem_map.mp hx
    by_cases hb : y.id = oid
    · rw [← hxy]
      simp [hb]
    · rw [← hxy] at hid
      simp only [beq_iff_eq, hb, if_false] at hid
  · rw [hred]
    unfold completedCount
    dsimp only []
    rw [List.filter_append]
    simp

theorem claim_C3_payment_success_witness :
    (processPayment (.success "tx1") dbOrder1 "u" 1 "card").1 = Except.ok () ∧
    (∀ x ∈ (processPayment (.success "tx1") dbOrder1 "u" 1 "card").2.orders,
      x.id = 1 → x.status = "paid") ∧
    (processPayment (.success "tx1") dbOrder1 "u" 1 "card").2.payments =
      dbOrder1.payments ++
        [⟨dbOrder1.nextPaymentId, 1, 5500, "completed", "card", "tx1"⟩] ∧
    completedCount (processPayment (.success "tx1") dbOrder1 "u" 1 "card").2 1 =
      completedCount dbOrder1 1 + 1 :=
  claim_C3_payment_success dbOrder1 "u" "card" "tx1" 1
    ⟨1, "u", "pending", 5500, "addr"⟩ (by decide)

/-- C5: when the gateway declines, `ProcessPayment` surfaces the gateway's
error with its reason (the code's rendering of `PaymentFailedError`), the
store is untouched — in particular no Payment row with success status is
created and the order is still its prior `pending` row — and a subsequent
call on the same order in which the gateway succeeds completes normally. -/
theorem claim_C5_decline_then_retry (db : DB) (uid method reason txid : String)
    (oid : Nat) (o : OrderRow)
    (hfind : db.orders.find? (fun x => x.id == oid && x.user_id == uid) = some o)
    (hpend : o.status = "pending") :
    (processPayment (.decline reason) db uid oid method).1 =
      Except.error (.gatewayError reason) ∧
    (processPayment (.decline reason) db uid oid method).2 = db ∧
    o ∈ (processPayment (.decline reason) db uid oid method).2.orders ∧
    o.status = "pending" ∧
    (processPayment (.success txid)
      (processPayment (.decline reason) db uid oid method).2 uid oid method).1 =
      Except.ok () := by
  have hred : processPayment (.decline reason) db uid oid method =
      (Except.error (.gatewayError reason), db) := by
    unfold processPayment processPaymentGen
    simp [hfind]
  have hok : (processPayment (.success txid) db uid oid method).1 =
      Except.ok () := by
    unfold processPayment processPaymentGen
    simp [hfind]
  exact ⟨by rw [hred], by rw [hred], by
    rw [hred]; exact List.mem_of_find?_eq_some hfind, hpend, by rw [hred]; exact hok⟩

theorem claim_C5_decline_then_retry_witness :
    (processPayment (.decline "card_declined") dbOrder1 "u" 1 "card").1 =
      Except.error (.gatewayError "card_declined") ∧
    (processPayment (.decline "card_declined") dbOrder1 "u" 1 "card").2 =
      dbOrder1 ∧
    (⟨1, "u", "pending", 5500, "addr"⟩ : OrderRow) ∈
      (processPayment (.decline "card_declined") dbOrder1 "u" 1 "card").2.orders ∧
    (⟨1, "u", "pending", 5500, "addr"⟩ : OrderRow).status = "pending" ∧
    (processPayment (.success "tx1")
      (processPayment (.decline "card_declined") dbOrder1 "u" 1 "card").2
      "u" 1 "card").1 = Except.ok () :=
  claim_C5_decline_then_retry dbOrder1 "u" "card" "card_declined" "tx1" 1
    ⟨1, "u", "pending", 5500, "addr"⟩ (by decide) rfl

/-- C6 counterexample: on a gateway timeout the handler surfaces the thrown
gateway error through the same single `catch` as a decline — the two outcomes
land in the same error kind (`gateway_error`), so the code has NO error kind
for timeouts distinct from the decline/failure kind. -/
theorem claim_C6_counterexample :
    (processPayment .timeout dbOrder1 "u" 1 "card").1 =
      Except.error (.gatewayError "timeout") ∧
    (processPayment (.decline "card_declined") dbOrder1 "u" 1 "card").1 =
      Except.error (.gatewayError "card_declined") ∧
    payErrKind (.gatewayError "timeout") =
      payErrKind (.gatewayError "card_declined") :=
  ⟨rfl, rfl, rfl⟩

/-- C6 amended: when the gateway call times out, `ProcessPayment` fails and
the order remains `pending` with no Payment row created; but the surfaced
error is the gateway error routed through the same generic failure path as
a decline (kind `gateway_error`) — there is no distinct
`PaymentIndeterminate` kind in the code. -/
theorem claim_C6_timeout_behavior (db : DB) (uid method : String)
    (oid : Nat) (o : OrderRow)
    (hfind : db.orders.find? (fun x => x.id == oid && x.user_id == uid) = some o)
    (hpend : o.status = "pending") :
    (processPayment .timeout db uid oid method).1 =
      Except.error (.gatewayError "timeout") ∧
    (processPayment .timeout db uid oid method).2 = db ∧
    o ∈ (processPayment .timeout db uid oid method).2.orders ∧
    o.status = "pending" ∧
    payErrKind (.gatewayError "timeout") = "gateway_error" := by
  have hred : processPayment .timeout db uid oid method =
      (Except.error (.gatewayError "timeout"), db) := by
    unfold processPayment processPaymentGen
    simp [hfind]
  exact ⟨by rw [hred], by rw [hred], by
    rw [hred]; exact List.mem_of_find?_eq_some hfind, hpend, rfl⟩

theorem claim_C6_timeout_behavior_witness :
    (processPayment .timeout dbOrder1 "u" 1 "card").1 =
      Except.error (.gatewayError "timeout") ∧
    (processPayment .timeout dbOrder1 "u" 1 "card").2 = dbOrder1 ∧
    (⟨1, "u", "pending", 5500, "addr"⟩ : OrderRow) ∈
      (processPayment .timeout dbOrder1 "u" 1 "card").2.orders ∧
    (⟨1, "u", "pending", 5500, "addr"⟩ : OrderRow).status = "pending" ∧
    payErrKind (.gatewayError "timeout") = "gateway_error" :=
  claim_C6_timeout_behavior dbOrder1 "u" "card" 1
    ⟨1, "u", "pending", 5500, "addr"⟩ (by decide) rfl

/-- C9: the payment handler's two writes run outside any transaction, so
when the status UPDATE (query 2) fails after the Payment INSERT (query 1)
succeeded, the committed store keeps the `completed` payment row while the
`orders` table — and hence the order's `pending` status — is unchanged. -/
theorem claim_C9_payment_writes_not_atomic (db : DB) (uid method txid : String)
    (oid : Nat) (o : OrderRow)
    (hfind : db.orders.find? (fun x => x.id == oid && x.user_id == uid) = some o) :
    (processPaymentGen (.success txid) (fun n => n == 2) db uid oid method).1 =
      Except.error .storeError ∧
    (processPaymentGen (.success txid) (fun n => n == 2) db uid oid method).2.payments =
      db.payments ++
        [⟨db.nextPaymentId, oid, o.total_amount, "completed", method, txid⟩] ∧
    (processPaymentGen (.success txid) (fun n => n == 2) db uid oid method).2.orders =
      db.orders := by
  unfold processPaymentGen
  simp [hfind]

theorem claim_C9_payment_writes_not_atomic_witness :
    (processPaymentGen (.success "tx1") (fun n => n == 2) dbOrder1 "u" 1 "card").1 =
      Except.error .storeError ∧
    (processPaymentGen (.success "tx1") (fun n => n == 2) dbOrder1
        "u" 1 "card").2.payments =
      dbOrder1.payments ++
        [⟨dbOrder1.nextPaymentId, 1, 5500, "completed", "card", "tx1"⟩] ∧
    (processPaymentGen (.success "tx1") (fun n => n == 2) dbOrder1
        "u" 1 "card").2.orders = dbOrder1.orders :=
  claim_C9_payment_writes_not_atomic dbOrder1 "u" "card" "tx1" 1
    ⟨1, "u", "pending", 5500, "addr"⟩ (by decide)

/-! ### C10: the one-cart-per-user invariant -/

theorem placeOrderGen_carts (fails : Nat → Bool) (db : DB) (uid addr : String) :
    (placeOrderGen fails db uid addr).2.carts = db.carts := by
  unfold placeOrderGen
  split_ifs <;> rfl

theorem processPaymentGen_carts (gw : GatewayResult) (fails : Nat → Bool)
    (db : DB) (uid : String) (oid : Nat) (method : String) :
    (processPaymentGen gw fails db uid oid method).2.carts = db.carts := by
  unfold processPaymentGen
  repeat' split
  all_goals rfl

theorem AtMostOneCart_of_carts_eq (db db1 : DB) (h : db1.carts = db.carts)
    (hinv : AtMostOneCart db) : AtMostOneCart db1 := by
  unfold AtMostOneCart at *
  rw [h]
  exact hinv

theorem addItemFinal_inv (db : DB) (uid : String) (pid : Option String)
    (qty price : Option Int) (hinv : AtMostOneCart db) :
    AtMostOneCart (addItemFinal db uid pid qty price) := by
  unfold addItemFinal addItem
  cases pid <;> cases qty <;> cases price <;> try exact hinv
  rcases hfilter : db.carts.filter (fun c => c.user_id == uid) with _ | ⟨c, rest⟩ <;>
    rw [hfilter]
  · have hnone : ∀ c_1 ∈ db.carts, c_1.user_id ≠ uid := by
      intro c1 hc1 hc1u
      have := List.filter_eq_nil_iff.mp hfilter c1 hc1
      simp [hc1u] at this
    intro c1 h1 c2 h2 heq
    rw [List.mem_append] at h1 h2
    rcases h1 with h1 | h1 <;> rcases h2 with h2 | h2
    · exact hinv c1 h1 c2 h2 heq
    · exfalso
      rw [List.mem_singleton] at h2
      subst h2
      exact hnone c1 h1 heq
    · exfalso
      rw [List.mem_singleton] at h1
      subst h1
      exact hnone c2 h2 heq.symm
    · rw [List.mem_singleton] at h1 h2
      rw [h1, h2]
  · exact hinv

/-- One client-visible operation of the service: the committed-store effect
of `POST /cart/add`, `DELETE /cart/remove/:itemId`, `POST /order/place` or
`POST /payment/process`, under any inputs, gateway outcome and injected
store failures.  (`GET /cart` and `GET /orders` are read-only.) -/
inductive OpStep : DB → DB → Prop where
  | add (db : DB) (uid : String) (pid : Option String) (qty price : Option Int) :
      OpStep db (addItemFinal db uid pid qty price)
  | remove (db : DB) (uid : String) (itemId : Nat) :
      OpStep db (removeItem db uid itemId)
  | place (db : DB) (fails : Nat → Bool) (uid addr : String) :
      OpStep db (placeOrderGen fails db uid addr).2
  | pay (db : DB) (gw : GatewayResult) (fails : Nat → Bool) (uid : String)
      (oid : Nat) (method : String) :
      OpStep db (processPaymentGen gw fails db uid oid method).2

/-- C10: every operation preserves "each user has at most one shopping
cart": `AddItem` reuses the existing cart row and inserts a new one only
when the user has none, and no other operation writes to `shopping_carts`,
so every state reachable from a state satisfying the invariant satisfies
it. -/
theorem claim_C10_at_most_one_cart (db db1 : DB) (hinv : AtMostOneCart db)
    (hreach : Relation.ReflTransGen OpStep db db1) : AtMostOneCart db1 := by
  induction hreach with
  | refl => exact hinv
  | tail _ hstep ih =>
      cases hstep with
      | add uid pid qty price => exact addItemFinal_inv _ uid pid qty price ih
      | remove uid itemId => exact AtMostOneCart_of_carts_eq _ _ rfl ih
      | place fails uid addr =>
          exact AtMostOneCart_of_carts_eq _ _ (placeOrderGen_carts fails _ uid addr) ih
      | pay gw fails uid oid method =>
          exact AtMostOneCart_of_carts_eq _ _
            (processPaymentGen_carts gw fails _ uid oid method) ih

theorem claim_C10_at_most_one_cart_witness :
    AtMostOneCart (addItemFinal DB.empty "u" (some "p") (some 1) (some 100)) :=
  claim_C10_at_most_one_cart DB.empty
    (addItemFinal DB.empty "u" (some "p") (some 1) (some 100))
    (by intro c1 h1; exact absurd h1 (List.not_mem_nil c1))
    (Relation.ReflTransGen.single
      (OpStep.add DB.empty "u" (some "p") (some 1) (some 100)))
